import Mathlib

/-!
Verification of the fake-switches core:
`fake_switches/switch_configuration.py` and
`fake_switches/brocade/command_processor/config_virtual_interface.py`.

The Python classes become Lean structures; object mutation becomes explicit
state passing (a command takes the list of `VlanPort`s of the switch
configuration plus the index of the processor's current port and returns the
updated list together with the emitted lines).  A Python expression that can
raise an uncaught exception (tuple indexing out of range, `IPNetwork` applied
to a malformed string, `re.search` returning `None`) is modelled by `Option`,
with `none` standing for the raised exception.
-/

set_option maxHeartbeats 1000000

namespace FakeSwitches

/-! ### Generic helpers modelling Python idioms -/

/-- Models Python `next((x for x in l if q x), None)`. -/
def py_next (q : α → Bool) : List α → Option α
  | [] => none
  | x :: rest => if q x then some x else py_next q rest

/-- Removes the first element satisfying `q`, if any (Python `list.remove` of a
found element, or a pop-and-break loop). -/
def remove_first (q : α → Bool) : List α → List α
  | [] => []
  | x :: rest => if q x then rest else x :: remove_first q rest

/-- Models Python `s.startswith(t)` on character lists: does `s` begin with `t`? -/
def starts_with : List Char → List Char → Bool
  | _, [] => true
  | [], _ :: _ => false
  | c :: cs, d :: ds => c == d && starts_with cs ds

/-- Python `s.startswith(t)`. -/
def pyStartsWith (s t : String) : Bool := starts_with s.toList t.toList

/-- Python `s.endswith(t)`. -/
def pyEndsWith (s t : String) : Bool := starts_with s.toList.reverse t.toList.reverse

/-- ASCII lower-casing of one character (Python `str.lower`, restricted to the
ASCII letters that occur in port names). -/
def lowerChar (c : Char) : Char :=
  match c with
  | 'A' => 'a' | 'B' => 'b' | 'C' => 'c' | 'D' => 'd' | 'E' => 'e' | 'F' => 'f'
  | 'G' => 'g' | 'H' => 'h' | 'I' => 'i' | 'J' => 'j' | 'K' => 'k' | 'L' => 'l'
  | 'M' => 'm' | 'N' => 'n' | 'O' => 'o' | 'P' => 'p' | 'Q' => 'q' | 'R' => 'r'
  | 'S' => 's' | 'T' => 't' | 'U' => 'u' | 'V' => 'v' | 'W' => 'w' | 'X' => 'x'
  | 'Y' => 'y' | 'Z' => 'z'
  | _ => c

/-- Python `s.lower()`. -/
def py_lower (s : String) : String := String.mk (s.toList.map lowerChar)

/-- Python `s.strip()`. -/
def py_strip (s : String) : String :=
  String.mk (((s.toList.dropWhile Char.isWhitespace).reverse.dropWhile
    Char.isWhitespace).reverse)

/-- A decimal digit, as matched by the regular expression `\d` in
`split_port_name`. -/
def isDigitChar (c : Char) : Bool := 48 ≤ c.toNat && c.toNat ≤ 57

/-- Splits a character list at every occurrence of `sep` (Python `s.split(sep)`). -/
def splitChars (sep : Char) : List Char → List (List Char)
  | [] => [[]]
  | c :: cs =>
    match splitChars sep cs with
    | [] => if c == sep then [[], []] else [[c]]
    | h :: t => if c == sep then [] :: h :: t else (c :: h) :: t

/-- Reads a non-empty all-digit character group as a number. -/
def chars_to_nat? (l : List Char) : Option Nat :=
  if !l.isEmpty && l.all isDigitChar then
    some (l.foldl (fun a c => a * 10 + (c.toNat - 48)) 0)
  else none

/-! ### IP networks (the slice of `netaddr.IPNetwork` the code uses) -/

/-- An IPv4 network in CIDR form.  `ip` is the 32-bit address value with its
host bits kept (as `netaddr.IPNetwork('10.0.0.5/24').ip` keeps them), `plen`
the mask length. -/
structure IPNetwork where
  ip : Nat
  plen : Nat
deriving DecidableEq

/-- Address membership `a in n` for an address and a network
(netaddr: `n.first <= a <= n.last`). -/
def memAddr (a : Nat) (n : IPNetwork) : Bool :=
  a / 2 ^ (32 - n.plen) == n.ip / 2 ^ (32 - n.plen)

/-- Network containment `a in b` for two networks (netaddr `__contains__`:
`a`'s address range lies within `b`'s). -/
def subnetOf (a b : IPNetwork) : Bool :=
  decide (b.plen ≤ a.plen) && (a.ip / 2 ^ (32 - b.plen) == b.ip / 2 ^ (32 - b.plen))

/-- Dotted-quad address parsing. -/
def parse_addr (l : List Char) : Option Nat :=
  match (splitChars '.' l).mapM chars_to_nat? with
  | some [a, b, c, d] =>
    if a < 256 ∧ b < 256 ∧ c < 256 ∧ d < 256 then
      some (((a * 256 + b) * 256 + c) * 256 + d)
    else none
  | _ => none

/-- `IPNetwork(s)` for a CIDR string; `none` models the exception raised on a
malformed argument. -/
def IPNetwork.parse (s : String) : Option IPNetwork :=
  match splitChars '/' s.toList with
  | [addr_part, len_part] =>
    match parse_addr addr_part, chars_to_nat? len_part with
    | some a, some p => if p ≤ 32 then some ⟨a, p⟩ else none
    | _, _ => none
  | _ => none

/-! ### The configuration model (`switch_configuration.py`) -/

structure VRF where
  name : String
deriving DecidableEq

/-- `Port.__init__`: every configuration field of a freshly constructed port.
The `switch_configuration` back-reference is not part of the port's own
configuration state and is modelled externally (ports live in the
configuration's list). -/
structure Port where
  name : String
  description : Option String := none
  mode : Option String := none
  access_vlan : Option Nat := none
  trunk_vlans : Option (List Nat) := none
  trunk_native_vlan : Option Nat := none
  trunk_encapsulation_mode : Option String := none
  shutdown : Option Bool := none
  vrf : Option VRF := none
  speed : Option String := none
  auto_negotiation : Option Bool := none
  aggregation_membership : Option String := none
  vendor_specific : List (String × String) := []
deriving DecidableEq

/-- A freshly constructed `Port(name)`. -/
def Port.new (name : String) : Port := { name := name }

/-- `Port.reset` exactly as written in the source: it clears `description`,
`mode`, `access_vlan`, `trunk_vlans`, `trunk_native_vlan`, `shutdown`, `vrf`,
`speed`, `auto_negotiation`, `aggregation_membership` and `vendor_specific`
(note that `trunk_encapsulation_mode` is not in its list). -/
def Port.reset (p : Port) : Port :=
  { p with
    description := none
    mode := none
    access_vlan := none
    trunk_vlans := none
    trunk_native_vlan := none
    shutdown := none
    vrf := none
    speed := none
    auto_negotiation := none
    aggregation_membership := none
    vendor_specific := [] }

/-- `VRRP.__init__(group_id)` with all its defaults. -/
structure VRRP where
  group_id : String
  ip_addresses : Option (List IPNetwork) := none
  description : Option String := none
  authentication : Option String := none
  timers_hello : Option Nat := none
  timers_hold : Bool := false
  priority : Option Nat := none
  track : List (String × Nat) := []
  preempt : Bool := true
  preempt_delay_minimum : Option Nat := none
  activated : Option Bool := none
  advertising : Option Bool := none
deriving DecidableEq

def VRRP.new (g : String) : VRRP := { group_id := g }

/-- `VlanPort(vlan_id, name)`. -/
structure VlanPort extends Port where
  vlan_id : Nat
  access_group_in : Option String := none
  access_group_out : Option String := none
  ips : List IPNetwork := []
  secondary_ips : List IPNetwork := []
  vrrp_common_authentication : Option String := none
  vrrps : List VRRP := []
deriving DecidableEq

def VlanPort.new (vlan_id : Nat) (name : String) : VlanPort :=
  { toPort := Port.new name, vlan_id := vlan_id }

def VlanPort.get_vrrp_group (p : VlanPort) (g : String) : Option VRRP :=
  py_next (fun v => v.group_id == g) p.vrrps

/-- The list update done by `VlanPort.add_ip`: replace the first entry holding
the same address, else append. -/
def replace_ip : List IPNetwork → IPNetwork → List IPNetwork
  | [], n => [n]
  | e :: rest, n => if e.ip == n.ip then n :: rest else e :: replace_ip rest n

def VlanPort.add_ip (p : VlanPort) (n : IPNetwork) : VlanPort :=
  { p with ips := replace_ip p.ips n }

def VlanPort.add_secondary_ip (p : VlanPort) (n : IPNetwork) : VlanPort :=
  { p with secondary_ips := p.secondary_ips ++ [n] }

/-- `VlanPort.remove_ip`: pop the first entry with the same address. -/
def VlanPort.remove_ip (p : VlanPort) (n : IPNetwork) : VlanPort :=
  { p with ips := remove_first (fun e => e.ip == n.ip) p.ips }

/-- `VlanPort.remove_secondary_ip`: remove the first entry with the same
address, if any. -/
def VlanPort.remove_secondary_ip (p : VlanPort) (n : IPNetwork) : VlanPort :=
  { p with secondary_ips := remove_first (fun e => e.ip == n.ip) p.secondary_ips }

/-- `SwitchConfiguration.get_port_and_ip_by_ip`: scan the `VlanPort`s in order
and return the first `(port, network)` pair whose primary network contains the
address.  The port is identified by its index in the list (Python returns the
object itself; `ip_owner == self.port` is object identity, which index
equality models). -/
def get_port_and_ip_by_ip (addr : Nat) : List VlanPort → Option (Nat × IPNetwork)
  | [] => none
  | p :: rest =>
    match py_next (fun ip => memAddr addr ip) p.ips with
    | some ip => some (0, ip)
    | none => (get_port_and_ip_by_ip addr rest).map (fun r => (r.1 + 1, r.2))

/-- The VRF-related slice of `SwitchConfiguration` (its `vrfs` list and the
ports carrying `vrf` back-references). -/
structure SwitchConfiguration where
  vrfs : List VRF
  ports : List Port
deriving DecidableEq

/-- `SwitchConfiguration.__init__`: the VRF list starts as `[VRF('DEFAULT-LAN')]`. -/
def SwitchConfiguration.init (ports : List Port) : SwitchConfiguration :=
  { vrfs := [⟨"DEFAULT-LAN"⟩], ports := ports }

def SwitchConfiguration.get_vrf (c : SwitchConfiguration) (n : String) : Option VRF :=
  py_next (fun v => v.name == n) c.vrfs

/-- `add_vrf`: append unless a VRF of that name already exists. -/
def SwitchConfiguration.add_vrf (c : SwitchConfiguration) (v : VRF) : SwitchConfiguration :=
  if (c.get_vrf v.name).isSome then c else { c with vrfs := c.vrfs ++ [v] }

/-- `remove_vrf`: if a VRF of that name exists, remove it and clear the `vrf`
back-reference of every port that referenced it. -/
def SwitchConfiguration.remove_vrf (c : SwitchConfiguration) (n : String) : SwitchConfiguration :=
  match c.get_vrf n with
  | none => c
  | some _ =>
    { c with
      vrfs := remove_first (fun v => v.name == n) c.vrfs
      ports := c.ports.map (fun p =>
        match p.vrf with
        | some vr => if vr.name == n then { p with vrf := none } else p
        | none => p) }

/-- `split_port_name` on character lists: cut before the first decimal digit;
`none` when the string holds no digit (where the Python code calls `.span()`
on the `None` returned by `re.search` and raises). -/
def split_port_name_chars : List Char → Option (List Char × List Char)
  | [] => none
  | c :: cs =>
    if isDigitChar c then some ([], c :: cs)
    else
      match split_port_name_chars cs with
      | some r => some (c :: r.1, r.2)
      | none => none

/-- `split_port_name(name)`; `none` models the exception raised on a digit-free
name. -/
def split_port_name (s : String) : Option (String × String) :=
  (split_port_name_chars s.toList).map (fun r => (String.mk r.1, String.mk r.2))

/-- `SwitchConfiguration.get_port_by_partial_name`.  The outer `none` models
the uncaught exception escaping from `split_port_name`; `some none` is the
not-found sentinel; `some (some p)` is the first matching port. -/
def get_port_by_part_name (ports : List Port) (name : String) : Option (Option Port) :=
  match split_port_name (py_lower name) with
  | none => none
  | some r =>
    some (py_next (fun port =>
      pyStartsWith (py_lower port.name) (py_strip r.1) &&
      pyEndsWith (py_lower port.name) (py_strip r.2)) ports)

/-- Does the string contain a decimal digit? -/
def has_digit (s : String) : Bool := s.toList.any isDigitChar

/-! ### The virtual-interface command processor (`config_virtual_interface.py`)

`do_ip` and `do_no_ip` receive the whitespace-split argument tokens after the
leading `ip` / `no ip`.  State is the configuration's `VlanPort` list together
with the index `cur` of `self.port` in it; the result also carries the lines
written by `write_line` and, for `move_to` into the VRRP sub-mode, the VRRP
group entered.  An overall `none` models an uncaught Python exception
(out-of-range tuple index, malformed `IPNetwork` argument, or a current port
that is not in the configuration). -/

/-- Result of one command invocation. -/
structure CmdOut where
  ports : List VlanPort
  out : List String
  entered : Option VRRP
deriving DecidableEq

/-- The checked first-position keywords of the `do_ip` dispatch. -/
def vif_ip_keywords : List String := ["address", "access-group", "vrrp-extended"]

/-- The `for ip in self.port.ips` loop of `do_ip`'s address branch, entered
when this port already owns an address whose network covers the new one.
`sec` threads `self.port.secondary_ips` (the loop may append to it and keeps
iterating).  Returns the final secondary list and the emitted lines. -/
def ipLoop (new_ip : IPNetwork) (sflag : Bool) (sec : List IPNetwork) :
    List IPNetwork → List IPNetwork × List String
  | [] => (sec, [])
  | ip :: rest =>
    if new_ip.ip == ip.ip then (sec, ["IP/Port: Errno(6) Duplicate ip address"])
    else if memAddr new_ip.ip ip then
      if sflag then
        if (py_next (fun s => s.ip == new_ip.ip) sec).isSome then
          (sec, ["IP/Port: Errno(6) Duplicate ip address"])
        else ipLoop new_ip sflag (sec ++ [new_ip]) rest
      else (sec, ["IP/Port: Errno(15) Can only assign one primary ip address per subnet"])
    else ipLoop new_ip sflag sec rest

/-- The `if "address".startswith(args[0])` block of `do_ip`. -/
def do_ip_address (cur : Nat) (ports : List VlanPort) (args : List String) :
    Option (List VlanPort × List String) :=
  match args.get? 1 with
  | none => none
  | some a1 =>
    match IPNetwork.parse a1 with
    | none => none
    | some new_ip =>
      match get_port_and_ip_by_ip new_ip.ip ports with
      | none =>
        match ports.get? cur with
        | none => none
        | some p => some (ports.set cur (p.add_ip new_ip), [])
      | some owner =>
        if owner.1 == cur then
          match ports.get? cur with
          | none => none
          | some p =>
            let sflag := decide (2 < args.length) && pyStartsWith "secondary" (args.getD 2 "")
            let r := ipLoop new_ip sflag p.secondary_ips p.ips
            some (ports.set cur { p with secondary_ips := r.1 }, r.2)
        else
          some (ports, ["IP/Port: Errno(11) ip subnet overlap with another interface"])

/-- The `if "access-group".startswith(args[0])` block of `do_ip`. -/
def do_ip_access_group (cur : Nat) (ports : List VlanPort) (args : List String) :
    Option (List VlanPort × List String) :=
  match args.get? 2, args.get? 1 with
  | some a2, some a1 =>
    match ports.get? cur with
    | none => none
    | some p =>
      if pyStartsWith "in" a2 then
        some (ports.set cur { p with access_group_in := some a1 }, [])
      else if pyStartsWith "out" a2 then
        some (ports.set cur { p with access_group_out := some a1 }, [])
      else some (ports, [])
  | _, _ => none

/-- The `if "vrrp-extended".startswith(args[0])` block of `do_ip`: the `vrid`
check (lazy group creation plus `move_to` into the VRRP sub-mode) followed by
the `auth-type` check. -/
def do_ip_vrrp (cur : Nat) (ports : List VlanPort) (args : List String) : Option CmdOut :=
  match args.get? 1 with
  | none => none
  | some a1 =>
    let step1 : Option CmdOut :=
      if pyStartsWith "vrid" a1 then
        match args.get? 2, ports.get? cur with
        | some g, some p =>
          match p.get_vrrp_group g with
          | some vrrp => some ⟨ports, [], some vrrp⟩
          | none =>
            some ⟨ports.set cur { p with vrrps := p.vrrps ++ [VRRP.new g] }, [],
              some (VRRP.new g)⟩
        | _, _ => none
      else some ⟨ports, [], none⟩
    match step1 with
    | none => none
    | some r1 =>
      if pyStartsWith "auth-type" a1 then
        match args.get? 2, r1.ports.get? cur with
        | some a2, some p =>
          if pyStartsWith "simple-text-auth" a2 then
            match args.get? 3 with
            | none => none
            | some a3 =>
              some ⟨r1.ports.set cur { p with vrrp_common_authentication := some a3 },
                r1.out, r1.entered⟩
          else if pyStartsWith "no-auth" a2 then
            some ⟨r1.ports.set cur { p with vrrp_common_authentication := none },
              r1.out, r1.entered⟩
          else some r1
        | _, _ => none
      else some r1

/-- `ConfigVirtualInterfaceCommandProcessor.do_ip`: the three keyword blocks
run in sequence (they are independent `if`s, not `elif`s), each on the state
left by the previous one. -/
def do_ip (cur : Nat) (ports : List VlanPort) (args : List String) : Option CmdOut :=
  match args.get? 0 with
  | none => none
  | some a0 =>
    match (if pyStartsWith "address" a0 then do_ip_address cur ports args
           else some (ports, [])) with
    | none => none
    | some s1 =>
      match (if pyStartsWith "access-group" a0 then do_ip_access_group cur s1.1 args
             else some (s1.1, [])) with
      | none => none
      | some s2 =>
        match (if pyStartsWith "vrrp-extended" a0 then do_ip_vrrp cur s2.1 args
               else some ⟨s2.1, [], none⟩) with
        | none => none
        | some r3 => some ⟨r3.ports, s1.2 ++ s2.2 ++ r3.out, r3.entered⟩

/-- The `if "address".startswith(args[0])` block of `do_no_ip`. -/
def do_no_ip_address (cur : Nat) (ports : List VlanPort) (args : List String) :
    Option (List VlanPort × List String) :=
  match args.get? 1 with
  | none => none
  | some a1 =>
    match IPNetwork.parse a1 with
    | none => none
    | some deleting_ip =>
      match ports.get? cur with
      | none => none
      | some p =>
        if (py_next (fun ip => ip.ip == deleting_ip.ip) p.secondary_ips).isSome then
          some (ports.set cur (p.remove_secondary_ip deleting_ip), [])
        else if !(py_next (fun ip => subnetOf ip deleting_ip) p.secondary_ips).isSome then
          some (ports.set cur (p.remove_ip deleting_ip), [])
        else
          some (ports,
            ["IP/Port: Errno(18) Delete secondary address before deleting primary address"])

/-- The `if "access-group".startswith(args[0])` block of `do_no_ip`. -/
def do_no_ip_access_group (cur : Nat) (ports : List VlanPort) (args : List String) :
    Option (List VlanPort × List String) :=
  match args.get? 1 with
  | none => none
  | some a1 =>
    if args.length < 3 then some (ports, ["Error: Wrong Access List Name " ++ a1])
    else
      match args.get? 2, ports.get? cur with
      | some a2, some p =>
        if pyStartsWith "in" a2 then
          if p.access_group_in == some a1 then
            some (ports.set cur { p with access_group_in := none }, [])
          else some (ports, ["Error: Wrong Access List Name " ++ a1])
        else if pyStartsWith "out" a2 then
          if p.access_group_out == some a1 then
            some (ports.set cur { p with access_group_out := none }, [])
          else some (ports, ["Error: Wrong Access List Name " ++ a1])
        else some (ports, [])
      | _, _ => none

/-- The `if "vrrp-extended".startswith(args[0])` block of `do_no_ip`: the
`vrid` removal check followed by the `auth-type` check, whose accepted
four-argument form re-enters `do_ip` with `vrrp-extended auth-type no-auth`. -/
def do_no_ip_vrrp (cur : Nat) (ports : List VlanPort) (args : List String) : Option CmdOut :=
  match args.get? 1 with
  | none => none
  | some a1 =>
    let step1 : Option (List VlanPort) :=
      if pyStartsWith "vrid" a1 then
        match args.get? 2, ports.get? cur with
        | some g, some p =>
          match p.get_vrrp_group g with
          | some _ =>
            some (ports.set cur
              { p with vrrps := remove_first (fun v => v.group_id == g) p.vrrps })
          | none => some ports
        | _, _ => none
      else some ports
    match step1 with
    | none => none
    | some ports1 =>
      if pyStartsWith "auth-type" a1 then
        match args.get? 2 with
        | none => none
        | some a2 =>
          if pyStartsWith "simple-text-auth" a2 && args.length == 4 then
            do_ip cur ports1 ["vrrp-extended", "auth-type", "no-auth"]
          else some ⟨ports1, ["Incomplete command."], none⟩
      else some ⟨ports1, [], none⟩

/-- `ConfigVirtualInterfaceCommandProcessor.do_no_ip`. -/
def do_no_ip (cur : Nat) (ports : List VlanPort) (args : List String) : Option CmdOut :=
  match args.get? 0 with
  | none => none
  | some a0 =>
    match (if pyStartsWith "address" a0 then do_no_ip_address cur ports args
           else some (ports, [])) with
    | none => none
    | some s1 =>
      match (if pyStartsWith "access-group" a0 then do_no_ip_access_group cur s1.1 args
             else some (s1.1, [])) with
      | none => none
      | some s2 =>
        match (if pyStartsWith "vrrp-extended" a0 then do_no_ip_vrrp cur s2.1 args
               else some ⟨s2.1, [], none⟩) with
        | none => none
        | some r3 => some ⟨r3.ports, s1.2 ++ s2.2 ++ r3.out, r3.entered⟩

/-! ### Concrete instances used by the witnesses and counterexamples -/

/-- A freshly created virtual interface for VLAN 1000. -/
def vp0 : VlanPort := VlanPort.new 1000 "ve 1000"

/-- A freshly created virtual interface for VLAN 2000. -/
def vp1 : VlanPort := VlanPort.new 2000 "ve 2000"

/-- 10.0.0.1/24. -/
def netA : IPNetwork := ⟨167772161, 24⟩

/-- 10.0.0.5/24. -/
def netB : IPNetwork := ⟨167772165, 24⟩

/-- A port holding primary 10.0.0.1/24 and secondary 10.0.0.5/24. -/
def c4_port : VlanPort := { vp0 with ips := [netA], secondary_ips := [netB] }

/-- A port whose shared VRRP authentication string is configured. -/
def c9_port : VlanPort := { vp0 with vrrp_common_authentication := some "VLAN62" }

/-- A port carrying configuration on every mutable field exercised below. -/
def c6_port : Port :=
  { Port.new "xe-1/0/1" with
    trunk_encapsulation_mode := some "dot1q"
    description := some "uplink"
    mode := some "trunk"
    access_vlan := some 7 }

/-! ### Helper lemmas about the list and lookup primitives -/

theorem py_next_eq_none_iff {q : α → Bool} {l : List α} :
    py_next q l = none ↔ ∀ x ∈ l, q x = false := by
  induction l with
  | nil => simp [py_next]
  | cons x rest ih =>
    by_cases hx : q x = true
    · simp [py_next, hx]
    · simp only [Bool.not_eq_true] at hx
      simp [py_next, hx, ih]

theorem py_next_append {q : α → Bool} {l1 : List α} (l2 : List α)
    (h : ∀ x ∈ l1, q x = false) : py_next q (l1 ++ l2) = py_next q l2 := by
  induction l1 with
  | nil => rfl
  | cons x rest ih =>
    have hx := h x (by simp)
    simp only [List.cons_append, py_next, hx, Bool.false_eq_true, if_false]
    exact ih fun y hy => h y (by simp [hy])

theorem py_next_isSome_iff {q : α → Bool} {l : List α} :
    (py_next q l).isSome = true ↔ ∃ x ∈ l, q x = true := by
  induction l with
  | nil => simp [py_next]
  | cons x rest ih =>
    by_cases hx : q x = true
    · simp [py_next, hx]
    · simp only [Bool.not_eq_true] at hx
      simp [py_next, hx, ih]

theorem mem_remove_first_of_neg {q : α → Bool} {x : α} {l : List α}
    (hx : x ∈ l) (hq : q x = false) : x ∈ remove_first q l := by
  induction l with
  | nil => cases hx
  | cons y rest ih =>
    rcases List.mem_cons.mp hx with rfl | hmem
    · simp [remove_first, hq]
    · by_cases hy : q y = true
      · simpa [remove_first, hy] using hmem
      · simp only [Bool.not_eq_true] at hy
        simp [remove_first, hy, ih hmem]

theorem remove_first_append {q : α → Bool} {l1 : List α} (a : α) (l2 : List α)
    (h1 : ∀ x ∈ l1, q x = false) (ha : q a = true) :
    remove_first q (l1 ++ a :: l2) = l1 ++ l2 := by
  induction l1 with
  | nil => simp [remove_first, ha]
  | cons x rest ih =>
    have hx := h1 x (by simp)
    simp only [List.cons_append, remove_first, hx, Bool.false_eq_true, if_false,
      List.cons.injEq, true_and]
    exact ih fun y hy => h1 y (by simp [hy])

theorem replace_ip_append {l : List IPNetwork} {n : IPNetwork}
    (h : ∀ e ∈ l, (e.ip == n.ip) = false) : replace_ip l n = l ++ [n] := by
  induction l with
  | nil => rfl
  | cons e rest ih =>
    have he := h e (by simp)
    simp only [replace_ip, he, Bool.false_eq_true, if_false, List.cons_append,
      List.cons.injEq, true_and]
    exact ih fun y hy => h y (by simp [hy])

theorem filter_all_false {p : α → Bool} {l : List α} (h : ∀ x ∈ l, p x = false) :
    l.filter p = [] := by
  induction l with
  | nil => rfl
  | cons x rest ih =>
    have hx := h x (by simp)
    simp [List.filter, hx, ih fun y hy => h y (by simp [hy])]

theorem filter_eq_single {p : α → Bool} {l : List α} {a : α} (h : l.filter p = [a]) :
    ∃ l1 l2, l = l1 ++ a :: l2 ∧ (∀ x ∈ l1, p x = false) ∧
      (∀ x ∈ l2, p x = false) ∧ p a = true := by
  induction l with
  | nil => simp at h
  | cons x rest ih =>
    by_cases hx : p x = true
    · rw [List.filter_cons_of_pos hx] at h
      obtain ⟨rfl, htail⟩ := List.cons.inj h
      refine ⟨[], rest, by simp, by simp, ?_, hx⟩
      intro y hy
      by_cases hpy : p y = true
      · exact absurd (List.mem_filter.mpr ⟨hy, hpy⟩) (by simp [htail])
      · simpa using hpy
    · simp only [Bool.not_eq_true] at hx
      rw [List.filter_cons_of_neg (by simp [hx])] at h
      obtain ⟨l1, l2, rfl, h1, h2, hpa⟩ := ih h
      exact ⟨x :: l1, l2, by simp, by
        intro y hy
        rcases List.mem_cons.mp hy with rfl | hmem
        · exact hx
        · exact h1 y hmem, h2, hpa⟩

theorem get?_lt {l : List α} {i : Nat} {x : α} (h : l.get? i = some x) :
    i < l.length := by
  induction l generalizing i with
  | nil => simp [List.get?] at h
  | cons y rest ih =>
    cases i with
    | zero => simp
    | succ j => simpa using ih (by simpa [List.get?] using h)

theorem get?_mem {l : List α} {i : Nat} {x : α} (h : l.get? i = some x) : x ∈ l := by
  induction l generalizing i with
  | nil => simp [List.get?] at h
  | cons y rest ih =>
    cases i with
    | zero => simp [List.get?] at h; simp [h]
    | succ j => exact List.mem_cons_of_mem _ (ih (by simpa [List.get?] using h))

theorem get?_set_self {l : List α} {i : Nat} (x : α) (h : i < l.length) :
    (l.set i x).get? i = some x := by
  induction l generalizing i with
  | nil => simp at h
  | cons y rest ih =>
    cases i with
    | zero => rfl
    | succ j => exact ih (by simpa using h)

theorem get?_set_other {l : List α} {i j : Nat} (x : α) (h : i ≠ j) :
    (l.set i x).get? j = l.get? j := by
  induction l generalizing i j with
  | nil => rfl
  | cons y rest ih =>
    cases i with
    | zero =>
      cases j with
      | zero => exact absurd rfl h
      | succ k => rfl
    | succ i' =>
      cases j with
      | zero => rfl
      | succ k => exact ih fun hc => h (by simp [hc])

theorem set_set_same {l : List α} {i : Nat} (x y : α) :
    (l.set i x).set i y = l.set i y := by
  induction l generalizing i with
  | nil => rfl
  | cons z rest ih =>
    cases i with
    | zero => rfl
    | succ j => simp [List.set, ih]

/-! ### Helper lemmas about addresses and the owner lookup -/

theorem memAddr_self (n : IPNetwork) : memAddr n.ip n = true := by simp [memAddr]

theorem subnetOf_memAddr {a b : IPNetwork} (h : subnetOf a b = true) :
    memAddr a.ip b = true := by
  simp only [subnetOf, Bool.and_eq_true] at h
  simpa [memAddr] using h.2

theorem beq_ip_false_of_not_memAddr {e n : IPNetwork} (h : memAddr n.ip e = false) :
    (e.ip == n.ip) = false := by
  by_contra hc
  simp only [Bool.not_eq_false, beq_iff_eq] at hc
  rw [← hc] at h
  rw [memAddr_self e] at h
  cases h

theorem gpibi_none_mem {addr : Nat} {ports : List VlanPort}
    (h : get_port_and_ip_by_ip addr ports = none) :
    ∀ p ∈ ports, ∀ ip ∈ p.ips, memAddr addr ip = false := by
  induction ports with
  | nil => simp
  | cons p rest ih =>
    intro p' hp' ip hip
    simp only [get_port_and_ip_by_ip] at h
    rcases hfind : py_next (fun ip => memAddr addr ip) p.ips with _ | found
    · rw [hfind] at h
      have h' : get_port_and_ip_by_ip addr rest = none := by
        rcases hr : get_port_and_ip_by_ip addr rest with _ | v
        · rfl
        · rw [hr] at h; cases h
      rcases List.mem_cons.mp hp' with rfl | hmem
      · exact py_next_eq_none_iff.mp hfind ip hip
      · exact ih h' p' hmem ip hip
    · rw [hfind] at h; cases h

theorem gpibi_set_append {ports : List VlanPort} {i : Nat} {P : VlanPort}
    {N : IPNetwork} {addr : Nat} (hP : ports.get? i = some P)
    (hnone : get_port_and_ip_by_ip addr ports = none) (hmem : memAddr addr N = true)
    {newP : VlanPort} (hips : newP.ips = P.ips ++ [N]) :
    get_port_and_ip_by_ip addr (ports.set i newP) = some (i, N) := by
  induction ports generalizing i with
  | nil => simp [List.get?] at hP
  | cons p rest ih =>
    have hhead : py_next (fun ip => memAddr addr ip) p.ips = none := by
      rw [py_next_eq_none_iff]
      exact fun ip hip => gpibi_none_mem hnone p (by simp) ip hip
    have htail : get_port_and_ip_by_ip addr rest = none := by
      simp only [get_port_and_ip_by_ip, hhead] at hnone
      simpa using hnone
    cases i with
    | zero =>
      obtain rfl : p = P := by simpa [List.get?] using hP
      have : py_next (fun ip => memAddr addr ip) newP.ips = some N := by
        rw [hips, py_next_append [N] (py_next_eq_none_iff.mp hhead)]
        simp [py_next, hmem]
      simp [List.set, get_port_and_ip_by_ip, this]
    | succ j =>
      have hPj : rest.get? j = some P := by simpa [List.get?] using hP
      simp [List.set, get_port_and_ip_by_ip, hhead, ih hPj htail]

theorem ipLoop_skip {new_ip : IPNetwork} {sflag : Bool} {sec l1 : List IPNetwork}
    (l2 : List IPNetwork) (h : ∀ e ∈ l1, memAddr new_ip.ip e = false) :
    ipLoop new_ip sflag sec (l1 ++ l2) = ipLoop new_ip sflag sec l2 := by
  induction l1 with
  | nil => rfl
  | cons e rest ih =>
    have he := h e (by simp)
    have hbeq : (new_ip.ip == e.ip) = false := by
      by_contra hc
      simp only [Bool.not_eq_false, beq_iff_eq] at hc
      rw [hc, memAddr_self e] at he
      cases he
    simp only [List.cons_append, ipLoop, hbeq, Bool.false_eq_true, if_false, he]
    exact ih fun y hy => h y (by simp [hy])

/-! ### Prefix-matching facts used by the dispatch reductions -/

theorem starts_with_self : ∀ l : List Char, starts_with l l = true
  | [] => rfl
  | c :: cs => by simp [starts_with, starts_with_self cs]

theorem psw_self (s : String) : pyStartsWith s s = true := starts_with_self s.toList

theorem psw_ag_addr : pyStartsWith "access-group" "address" = false := by decide

theorem psw_ve_addr : pyStartsWith "vrrp-extended" "address" = false := by decide

theorem psw_addr_ve : pyStartsWith "address" "vrrp-extended" = false := by decide

theorem psw_ag_ve : pyStartsWith "access-group" "vrrp-extended" = false := by decide

theorem psw_vrid_auth : pyStartsWith "vrid" "auth-type" = false := by decide

theorem psw_auth_vrid : pyStartsWith "auth-type" "vrid" = false := by decide

theorem psw_sta_noauth : pyStartsWith "simple-text-auth" "no-auth" = false := by decide

/-! ### Claim theorems -/

/-- C3: after `ip address A` has succeeded on a VlanPort (no port previously
owned any address covering A), issuing the exact same command on the same port
again emits the line `IP/Port: Errno(6) Duplicate ip address` and leaves the
port's primary and secondary IP lists exactly as they were — the rejection
mutates no state. -/
theorem c3_duplicate_idempotent (ports : List VlanPort) (i : Nat) (P : VlanPort)
    (A : IPNetwork) (a : String)
    (hP : ports.get? i = some P) (ha : IPNetwork.parse a = some A)
    (hnone : get_port_and_ip_by_ip A.ip ports = none) :
    do_ip i ports ["address", a] =
      some ⟨ports.set i { P with ips := P.ips ++ [A] }, [], none⟩ ∧
    do_ip i (ports.set i { P with ips := P.ips ++ [A] }) ["address", a] =
      some ⟨ports.set i { P with ips := P.ips ++ [A] },
        ["IP/Port: Errno(6) Duplicate ip address"], none⟩ := by
  have hmiss : ∀ e ∈ P.ips, memAddr A.ip e = false := fun e he =>
    gpibi_none_mem hnone P (get?_mem hP) e he
  have hbeq : ∀ e ∈ P.ips, (e.ip == A.ip) = false := fun e he =>
    beq_ip_false_of_not_memAddr (hmiss e he)
  have hlen : i < ports.length := get?_lt hP
  have hnew : (ports.set i { P with ips := P.ips ++ [A] }).get? i =
      some { P with ips := P.ips ++ [A] } := get?_set_self _ hlen
  have howner : get_port_and_ip_by_ip A.ip
      (ports.set i { P with ips := P.ips ++ [A] }) = some (i, A) :=
    gpibi_set_append hP hnone (memAddr_self A) rfl
  have hloop : ∀ sflag, ipLoop A sflag P.secondary_ips (P.ips ++ [A]) =
      (P.secondary_ips, ["IP/Port: Errno(6) Duplicate ip address"]) := by
    intro sflag
    rw [ipLoop_skip _ hmiss]
    simp [ipLoop]
  constructor
  · simp only [do_ip, do_ip_address, List.get?, psw_self, psw_ag_addr, psw_ve_addr,
      ha, hnone, hP, VlanPort.add_ip, replace_ip_append hbeq, if_true,
      Bool.false_eq_true, if_false, List.append_nil, List.nil_append]
  · simp only [do_ip, do_ip_address, List.get?, psw_self, psw_ag_addr, psw_ve_addr,
      ha, howner, hnew, hloop, beq_self_eq_true, if_true, Bool.false_eq_true,
      if_false, List.append_nil, List.nil_append, set_set_same]

/-- Witness for C3: the concrete scenario on one fresh port and 10.0.0.1/24. -/
theorem c3_witness :
    (([vp0] : List VlanPort).get? 0 = some vp0) ∧
    (IPNetwork.parse "10.0.0.1/24" = some netA) ∧
    (get_port_and_ip_by_ip netA.ip [vp0] = none) ∧
    (do_ip 0 [vp0] ["address", "10.0.0.1/24"] =
      some ⟨[vp0].set 0 { vp0 with ips := vp0.ips ++ [netA] }, [], none⟩ ∧
    do_ip 0 ([vp0].set 0 { vp0 with ips := vp0.ips ++ [netA] }) ["address", "10.0.0.1/24"] =
      some ⟨[vp0].set 0 { vp0 with ips := vp0.ips ++ [netA] },
        ["IP/Port: Errno(6) Duplicate ip address"], none⟩) :=
  ⟨by decide, by decide, by decide,
    c3_duplicate_idempotent [vp0] 0 vp0 netA "10.0.0.1/24" (by decide) (by decide) (by decide)⟩

/-- C1 counterexample: on a switch whose single VlanPort owns no address at
all (so no port owns any address covering 10.0.0.5), the command
`ip address 10.0.0.5/24 secondary` is NOT rejected: no error line is emitted
and the address is appended to the port's PRIMARY list, which therefore
changes, while the claim requires an error line and unchanged lists. -/
theorem c1_counterexample :
    do_ip 0 [vp0] ["address", "10.0.0.5/24", "secondary"] =
      some ⟨[{ vp0 with ips := [netB] }], [], none⟩ ∧
    get_port_and_ip_by_ip netB.ip [vp0] = none ∧
    ({ vp0 with ips := [netB] } : VlanPort) ≠ vp0 := by decide

/-- C1 amended: when no port owns any address covering A, `ip address A
secondary` is not rejected — it silently appends A to P's PRIMARY list and
leaves the secondary list untouched; after a primary address A0 of A's subnet
has been added to P, the same secondary command succeeds and appends A to P's
secondary IP list. -/
theorem c1_amended (ports : List VlanPort) (i : Nat) (P : VlanPort)
    (A A0 : IPNetwork) (a a0 : String)
    (hP : ports.get? i = some P)
    (ha : IPNetwork.parse a = some A) (ha0 : IPNetwork.parse a0 = some A0)
    (hnone : get_port_and_ip_by_ip A.ip ports = none)
    (hnone0 : get_port_and_ip_by_ip A0.ip ports = none)
    (hsub : memAddr A.ip A0 = true) (hne : A.ip ≠ A0.ip)
    (hsec : ∀ s ∈ P.secondary_ips, (s.ip == A.ip) = false) :
    do_ip i ports ["address", a, "secondary"] =
      some ⟨ports.set i { P with ips := P.ips ++ [A] }, [], none⟩ ∧
    do_ip i ports ["address", a0] =
      some ⟨ports.set i { P with ips := P.ips ++ [A0] }, [], none⟩ ∧
    do_ip i (ports.set i { P with ips := P.ips ++ [A0] }) ["address", a, "secondary"] =
      some ⟨ports.set i
        { P with
          ips := P.ips ++ [A0]
          secondary_ips := P.secondary_ips ++ [A] },
        [], none⟩ := by
  have hmiss : ∀ e ∈ P.ips, memAddr A.ip e = false := fun e he =>
    gpibi_none_mem hnone P (get?_mem hP) e he
  have hbeq : ∀ e ∈ P.ips, (e.ip == A.ip) = false := fun e he =>
    beq_ip_false_of_not_memAddr (hmiss e he)
  have hbeq0 : ∀ e ∈ P.ips, (e.ip == A0.ip) = false := fun e he =>
    beq_ip_false_of_not_memAddr (gpibi_none_mem hnone0 P (get?_mem hP) e he)
  have hlen : i < ports.length := get?_lt hP
  have hnew : (ports.set i { P with ips := P.ips ++ [A0] }).get? i =
      some { P with ips := P.ips ++ [A0] } := get?_set_self _ hlen
  have howner : get_port_and_ip_by_ip A.ip
      (ports.set i { P with ips := P.ips ++ [A0] }) = some (i, A0) :=
    gpibi_set_append hP hnone hsub rfl
  have hbeqA0 : (A.ip == A0.ip) = false := by
    simpa using hne
  have hfind : py_next (fun s => s.ip == A.ip) P.secondary_ips = none :=
    py_next_eq_none_iff.mpr hsec
  have hsflag : (decide (2 < (["address", a, "secondary"] : List String).length) &&
      pyStartsWith "secondary" ((["address", a, "secondary"] : List String).getD 2 "")) =
      true := by
    simp [List.getD, psw_self]
  have hloop : ipLoop A true P.secondary_ips (P.ips ++ [A0]) =
      (P.secondary_ips ++ [A], []) := by
    rw [ipLoop_skip _ hmiss]
    simp [ipLoop, hbeqA0, hsub, hfind]
  refine ⟨?_, ?_, ?_⟩
  · simp only [do_ip, do_ip_address, List.get?, psw_self, psw_ag_addr, psw_ve_addr,
      ha, hnone, hP, VlanPort.add_ip, replace_ip_append hbeq, if_true,
      Bool.false_eq_true, if_false, List.append_nil, List.nil_append]
  · simp only [do_ip, do_ip_address, List.get?, psw_self, psw_ag_addr, psw_ve_addr,
      ha0, hnone0, hP, VlanPort.add_ip, replace_ip_append hbeq0, if_true,
      Bool.false_eq_true, if_false, List.append_nil, List.nil_append]
  · simp only [do_ip, do_ip_address, List.get?, psw_self, psw_ag_addr, psw_ve_addr,
      ha, howner, hnew, hsflag, hloop, beq_self_eq_true, if_true,
      Bool.false_eq_true, if_false, Bool.true_and, List.append_nil,
      List.nil_append, set_set_same]

/-- Witness for C1 (amended) at a concrete configuration: 10.0.0.5/24 as the
secondary address, 10.0.0.1/24 as the later primary. -/
theorem c1_witness :
    (([vp0] : List VlanPort).get? 0 = some vp0) ∧
    (IPNetwork.parse "10.0.0.5/24" = some netB) ∧
    (IPNetwork.parse "10.0.0.1/24" = some netA) ∧
    (get_port_and_ip_by_ip netB.ip [vp0] = none) ∧
    (get_port_and_ip_by_ip netA.ip [vp0] = none) ∧
    (memAddr netB.ip netA = true) ∧
    (netB.ip ≠ netA.ip) ∧
    (do_ip 0 [vp0] ["address", "10.0.0.5/24", "secondary"] =
      some ⟨[vp0].set 0 { vp0 with ips := vp0.ips ++ [netB] }, [], none⟩ ∧
    do_ip 0 [vp0] ["address", "10.0.0.1/24"] =
      some ⟨[vp0].set 0 { vp0 with ips := vp0.ips ++ [netA] }, [], none⟩ ∧
    do_ip 0 ([vp0].set 0 { vp0 with ips := vp0.ips ++ [netA] })
        ["address", "10.0.0.5/24", "secondary"] =
      some ⟨[vp0].set 0
        { vp0 with
          ips := vp0.ips ++ [netA]
          secondary_ips := vp0.secondary_ips ++ [netB] }, [], none⟩) :=
  ⟨by decide, by decide, by decide, by decide, by decide, by decide, by decide,
    (c1_amended [vp0] 0 vp0 netB netA "10.0.0.5/24" "10.0.0.1/24" (by decide)
      (by decide) (by decide) (by decide) (by decide) (by decide) (by decide)
      (by decide)).1,
    (c1_amended [vp0] 0 vp0 netB netA "10.0.0.5/24" "10.0.0.1/24" (by decide)
      (by decide) (by decide) (by decide) (by decide) (by decide) (by decide)
      (by decide)).2.1,
    (c1_amended [vp0] 0 vp0 netB netA "10.0.0.5/24" "10.0.0.1/24" (by decide)
      (by decide) (by decide) (by decide) (by decide) (by decide) (by decide)
      (by decide)).2.2⟩

/-- C2: after `ip address A` has succeeded on port X (index i), issuing the
same command on a different port Y (index j) emits the line
`IP/Port: Errno(11) ip subnet overlap with another interface` and changes no
state at all — Y keeps exactly the entry it had (so its primary and secondary
lists stay unchanged, empty if they were empty) — and the address lookup
still resolves to X and A. -/
theorem c2_subnet_overlap (ports : List VlanPort) (i j : Nat) (P Y : VlanPort)
    (A : IPNetwork) (a : String)
    (hij : i ≠ j)
    (hP : ports.get? i = some P) (hY : ports.get? j = some Y)
    (ha : IPNetwork.parse a = some A)
    (hnone : get_port_and_ip_by_ip A.ip ports = none) :
    do_ip i ports ["address", a] =
      some ⟨ports.set i { P with ips := P.ips ++ [A] }, [], none⟩ ∧
    do_ip j (ports.set i { P with ips := P.ips ++ [A] }) ["address", a] =
      some ⟨ports.set i { P with ips := P.ips ++ [A] },
        ["IP/Port: Errno(11) ip subnet overlap with another interface"], none⟩ ∧
    get_port_and_ip_by_ip A.ip (ports.set i { P with ips := P.ips ++ [A] }) =
      some (i, A) ∧
    (ports.set i { P with ips := P.ips ++ [A] }).get? j = some Y := by
  have hbeq : ∀ e ∈ P.ips, (e.ip == A.ip) = false := fun e he =>
    beq_ip_false_of_not_memAddr (gpibi_none_mem hnone P (get?_mem hP) e he)
  have howner : get_port_and_ip_by_ip A.ip
      (ports.set i { P with ips := P.ips ++ [A] }) = some (i, A) :=
    gpibi_set_append hP hnone (memAddr_self A) rfl
  have hbij : (i == j) = false := by simpa using hij
  refine ⟨?_, ?_, howner, ?_⟩
  · simp only [do_ip, do_ip_address, List.get?, psw_self, psw_ag_addr, psw_ve_addr,
      ha, hnone, hP, VlanPort.add_ip, replace_ip_append hbeq, if_true,
      Bool.false_eq_true, if_false, List.append_nil, List.nil_append]
  · simp only [do_ip, do_ip_address, List.get?, psw_self, psw_ag_addr, psw_ve_addr,
      ha, howner, hbij, Bool.false_eq_true, if_false, if_true, List.append_nil,
      List.nil_append]
  · rw [get?_set_other _ hij, hY]

/-- Witness for C2: two fresh ports, 10.0.0.1/24 configured on the first, then
requested again on the second. -/
theorem c2_witness :
    ((0 : Nat) ≠ 1) ∧
    (([vp0, vp1] : List VlanPort).get? 0 = some vp0) ∧
    (([vp0, vp1] : List VlanPort).get? 1 = some vp1) ∧
    (IPNetwork.parse "10.0.0.1/24" = some netA) ∧
    (get_port_and_ip_by_ip netA.ip [vp0, vp1] = none) ∧
    (do_ip 0 [vp0, vp1] ["address", "10.0.0.1/24"] =
      some ⟨[vp0, vp1].set 0 { vp0 with ips := vp0.ips ++ [netA] }, [], none⟩ ∧
    do_ip 1 ([vp0, vp1].set 0 { vp0 with ips := vp0.ips ++ [netA] })
        ["address", "10.0.0.1/24"] =
      some ⟨[vp0, vp1].set 0 { vp0 with ips := vp0.ips ++ [netA] },
        ["IP/Port: Errno(11) ip subnet overlap with another interface"], none⟩ ∧
    get_port_and_ip_by_ip netA.ip
        ([vp0, vp1].set 0 { vp0 with ips := vp0.ips ++ [netA] }) = some (0, netA) ∧
    ([vp0, vp1].set 0 { vp0 with ips := vp0.ips ++ [netA] }).get? 1 = some vp1) :=
  ⟨by decide, by decide, by decide, by decide, by decide,
    c2_subnet_overlap [vp0, vp1] 0 1 vp0 vp1 netA "10.0.0.1/24" (by decide)
      (by decide) (by decide) (by decide) (by decide)⟩

/-- C4: on a VlanPort whose only primary address in A's subnet is A and whose
only secondary address in that subnet is B (B covered by A's network, with a
mask no shorter than A's, and a different address): `no ip address A` emits
the line `IP/Port: Errno(18) Delete secondary address before deleting primary
address` and removes nothing; `no ip address B` then removes B from the
secondary list, after which `no ip address A` succeeds and removes A, leaving
the port with no address at all in that subnet. -/
theorem c4_delete_ordering (ports : List VlanPort) (i : Nat) (P : VlanPort)
    (A B : IPNetwork) (a b : String)
    (hP : ports.get? i = some P)
    (ha : IPNetwork.parse a = some A) (hb : IPNetwork.parse b = some B)
    (hfp : P.ips.filter (fun e => memAddr e.ip A) = [A])
    (hfs : P.secondary_ips.filter (fun e => memAddr e.ip A) = [B])
    (hplen : A.plen ≤ B.plen) (hBA : memAddr B.ip A = true) (hne : B.ip ≠ A.ip) :
    do_no_ip i ports ["address", a] =
      some ⟨ports,
        ["IP/Port: Errno(18) Delete secondary address before deleting primary address"],
        none⟩ ∧
    do_no_ip i ports ["address", b] =
      some ⟨ports.set i (P.remove_secondary_ip B), [], none⟩ ∧
    do_no_ip i (ports.set i (P.remove_secondary_ip B)) ["address", a] =
      some ⟨ports.set i ((P.remove_secondary_ip B).remove_ip A), [], none⟩ ∧
    ((P.remove_secondary_ip B).remove_ip A).ips.filter (fun e => memAddr e.ip A) = [] ∧
    ((P.remove_secondary_ip B).remove_ip A).secondary_ips.filter
      (fun e => memAddr e.ip A) = [] := by
  obtain ⟨m1, m2, hips_eq, hm1, hm2, _⟩ := filter_eq_single hfp
  obtain ⟨l1, l2, hsec_eq, hl1, hl2, _⟩ := filter_eq_single hfs
  have hAX : ∀ x : IPNetwork, memAddr x.ip A = false → (x.ip == A.ip) = false := by
    intro x hx
    by_contra hc
    simp only [Bool.not_eq_false, beq_iff_eq] at hc
    rw [hc, memAddr_self A] at hx
    cases hx
  have hBX : ∀ x : IPNetwork, memAddr x.ip A = false → (x.ip == B.ip) = false := by
    intro x hx
    by_contra hc
    simp only [Bool.not_eq_false, beq_iff_eq] at hc
    rw [hc, hBA] at hx
    cases hx
  have hSX : ∀ x : IPNetwork, memAddr x.ip A = false → subnetOf x A = false := by
    intro x hx
    by_contra hc
    simp only [Bool.not_eq_false] at hc
    rw [subnetOf_memAddr hc] at hx
    cases hx
  have hsubB : subnetOf B A = true := by
    simp only [subnetOf, Bool.and_eq_true, decide_eq_true_eq]
    exact ⟨hplen, by simpa [memAddr] using hBA⟩
  have hlen : i < ports.length := get?_lt hP
  have hBneA : (B.ip == A.ip) = false := by simpa using hne
  -- the first command: no secondary holds A's exact address,
  -- but B is a secondary inside A's network
  have hchk1 : py_next (fun ip => ip.ip == A.ip) P.secondary_ips = none := by
    rw [py_next_eq_none_iff, hsec_eq]
    intro x hx
    rcases List.mem_append.mp hx with h1 | h2
    · exact hAX x (hl1 x h1)
    · rcases List.mem_cons.mp h2 with rfl | h2'
      · exact hBneA
      · exact hAX x (hl2 x h2')
  have hchk2 : (py_next (fun ip => subnetOf ip A) P.secondary_ips).isSome = true :=
    py_next_isSome_iff.mpr ⟨B, by rw [hsec_eq]; simp, hsubB⟩
  -- the second command: B is found by exact address among the secondaries
  have hchk3 : (py_next (fun ip => ip.ip == B.ip) P.secondary_ips).isSome = true :=
    py_next_isSome_iff.mpr ⟨B, by rw [hsec_eq]; simp, by simp⟩
  have hrm_sec : remove_first (fun e => e.ip == B.ip) P.secondary_ips = l1 ++ l2 := by
    rw [hsec_eq]
    exact remove_first_append B l2 (fun x hx => hBX x (hl1 x hx)) (by simp)
  -- the third command: the remaining secondaries hold nothing in A's subnet
  have hrest : ∀ x ∈ l1 ++ l2, memAddr x.ip A = false := by
    intro x hx
    rcases List.mem_append.mp hx with h1 | h2
    · exact hl1 x h1
    · exact hl2 x h2
  have hchk4 : py_next (fun ip => ip.ip == A.ip) (l1 ++ l2) = none := by
    rw [py_next_eq_none_iff]
    exact fun x hx => hAX x (hrest x hx)
  have hchk5 : py_next (fun ip => subnetOf ip A) (l1 ++ l2) = none := by
    rw [py_next_eq_none_iff]
    exact fun x hx => hSX x (hrest x hx)
  have hrm_ip : remove_first (fun e => e.ip == A.ip) P.ips = m1 ++ m2 := by
    rw [hips_eq]
    exact remove_first_append A m2 (fun x hx => hAX x (hm1 x hx)) (by simp)
  have hP1 : (ports.set i { P with secondary_ips := l1 ++ l2 }).get? i =
      some { P with secondary_ips := l1 ++ l2 } := get?_set_self _ hlen
  have hfil_ips : (m1 ++ m2).filter (fun e => memAddr e.ip A) = [] :=
    filter_all_false fun x hx => by
      rcases List.mem_append.mp hx with h1 | h2
      · exact hm1 x h1
      · exact hm2 x h2
  have hfil_sec : (l1 ++ l2).filter (fun e => memAddr e.ip A) = [] :=
    filter_all_false hrest
  refine ⟨?_, ?_, ?_, ?_, ?_⟩
  · simp only [do_no_ip, do_no_ip_address, List.get?, psw_self, psw_ag_addr,
      psw_ve_addr, ha, hP, hchk1, hchk2, Option.isSome_none, Bool.not_true,
      Bool.false_eq_true, if_false, if_true, List.append_nil, List.nil_append]
  · simp only [do_no_ip, do_no_ip_address, List.get?, psw_self, psw_ag_addr,
      psw_ve_addr, hb, hP, hchk3, Bool.false_eq_true, if_false, if_true,
      List.append_nil, List.nil_append]
  · simp only [do_no_ip, do_no_ip_address, List.get?, psw_self, psw_ag_addr,
      psw_ve_addr, ha, hP1, VlanPort.remove_secondary_ip, hrm_sec, hchk4, hchk5,
      Option.isSome_none, Bool.not_false, Bool.false_eq_true, if_false, if_true,
      List.append_nil, List.nil_append, set_set_same, VlanPort.remove_ip]
  · simp only [VlanPort.remove_ip, VlanPort.remove_secondary_ip, hrm_ip, hfil_ips]
  · simp only [VlanPort.remove_ip, VlanPort.remove_secondary_ip, hrm_sec, hfil_sec]

/-- Witness for C4: a port holding primary 10.0.0.1/24 and secondary
10.0.0.5/24. -/
theorem c4_witness :
    (([c4_port] : List VlanPort).get? 0 = some c4_port) ∧
    (IPNetwork.parse "10.0.0.1/24" = some netA) ∧
    (IPNetwork.parse "10.0.0.5/24" = some netB) ∧
    (c4_port.ips.filter (fun e => memAddr e.ip netA) = [netA]) ∧
    (c4_port.secondary_ips.filter (fun e => memAddr e.ip netA) = [netB]) ∧
    (netA.plen ≤ netB.plen) ∧ (memAddr netB.ip netA = true) ∧ (netB.ip ≠ netA.ip) ∧
    (do_no_ip 0 [c4_port] ["address", "10.0.0.1/24"] =
      some ⟨[c4_port],
        ["IP/Port: Errno(18) Delete secondary address before deleting primary address"],
        none⟩ ∧
    do_no_ip 0 [c4_port] ["address", "10.0.0.5/24"] =
      some ⟨[c4_port].set 0 (c4_port.remove_secondary_ip netB), [], none⟩ ∧
    do_no_ip 0 ([c4_port].set 0 (c4_port.remove_secondary_ip netB))
        ["address", "10.0.0.1/24"] =
      some ⟨[c4_port].set 0 ((c4_port.remove_secondary_ip netB).remove_ip netA),
        [], none⟩ ∧
    ((c4_port.remove_secondary_ip netB).remove_ip netA).ips.filter
      (fun e => memAddr e.ip netA) = [] ∧
    ((c4_port.remove_secondary_ip netB).remove_ip netA).secondary_ips.filter
      (fun e => memAddr e.ip netA) = []) :=
  ⟨by decide, by decide, by decide, by decide, by decide, by decide, by decide,
    by decide,
    c4_delete_ordering [c4_port] 0 c4_port netA netB "10.0.0.1/24" "10.0.0.5/24"
      (by decide) (by decide) (by decide) (by decide) (by decide) (by decide)
      (by decide) (by decide)⟩

theorem starts_with_take2 {s t : List Char} (h : starts_with s t = true)
    (hl : 2 ≤ t.length) : t.take 2 = s.take 2 := by
  match s, t with
  | _, [] => simp at hl
  | _, [c] => simp at hl
  | [], c :: d :: ts => simp [starts_with] at h
  | [a], c :: d :: ts => simp [starts_with] at h
  | a :: b :: ss, c :: d :: ts =>
    simp only [starts_with, Bool.and_eq_true, beq_iff_eq] at h
    obtain ⟨h1, h2, _⟩ := h
    simp [h1, h2]

/-- C5 counterexample: the single received token `a` is a non-empty prefix of
the two distinct checked keywords `address` and `access-group` of the `do_ip`
dispatch — and the handler indeed runs both branches for it (here it both
assigns the primary address and sets the inbound access-group to the address
string). -/
theorem c5_counterexample :
    "address" ∈ vif_ip_keywords ∧ "access-group" ∈ vif_ip_keywords ∧
    ("address" : String) ≠ "access-group" ∧ ("a" : String) ≠ "" ∧
    pyStartsWith "address" "a" = true ∧ pyStartsWith "access-group" "a" = true ∧
    do_ip 0 [vp0] ["a", "10.0.0.1/24", "in"] =
      some ⟨[{ vp0 with ips := [netA], access_group_in := some "10.0.0.1/24" }],
        [], none⟩ := by decide

/-- C5 amended: tokens of length at least two are unambiguous — no token of
two or more characters is simultaneously a prefix of two distinct checked
keywords among `address`, `access-group` and `vrrp-extended` (only the
single-character token `a` is ambiguous, between `address` and
`access-group`). -/
theorem c5_amended (t k1 k2 : String) (h1 : k1 ∈ vif_ip_keywords)
    (h2 : k2 ∈ vif_ip_keywords) (hne : k1 ≠ k2) (hlen : 2 ≤ t.length) :
    ¬(pyStartsWith k1 t = true ∧ pyStartsWith k2 t = true) := by
  rintro ⟨hs1, hs2⟩
  have hlen' : 2 ≤ t.toList.length := hlen
  have e1 : t.toList.take 2 = k1.toList.take 2 := starts_with_take2 hs1 hlen'
  have e2 : t.toList.take 2 = k2.toList.take 2 := starts_with_take2 hs2 hlen'
  have e12 : k1.toList.take 2 = k2.toList.take 2 := e1.symm.trans e2
  simp only [vif_ip_keywords, List.mem_cons, List.mem_singleton,
    List.not_mem_nil, or_false] at h1 h2
  rcases h1 with rfl | rfl | rfl <;> rcases h2 with rfl | rfl | rfl <;>
    first
      | exact hne rfl
      | exact absurd e12 (by decide)

/-- Witness for C5 (amended) at the concrete two-character token `ad`. -/
theorem c5_witness :
    ("address" ∈ vif_ip_keywords) ∧ ("access-group" ∈ vif_ip_keywords) ∧
    (("address" : String) ≠ "access-group") ∧ (2 ≤ ("ad" : String).length) ∧
    ¬(pyStartsWith "address" "ad" = true ∧ pyStartsWith "access-group" "ad" = true) :=
  ⟨by decide, by decide, by decide, by decide,
    c5_amended "ad" "address" "access-group" (by decide) (by decide) (by decide)
      (by decide)⟩

/-- C6 counterexample: `reset()` does not restore `trunk_encapsulation_mode` —
on a port configured with encapsulation `dot1q` the field survives `reset`,
so the reset port differs from a freshly constructed port of the same name. -/
theorem c6_counterexample :
    (Port.reset c6_port).trunk_encapsulation_mode = some "dot1q" ∧
    (Port.new c6_port.name).trunk_encapsulation_mode = none ∧
    Port.reset c6_port ≠ Port.new c6_port.name := by decide

/-- C6 amended: `reset()` restores every mutable configuration field EXCEPT
`trunk_encapsulation_mode` (which keeps its current value) to its
freshly-constructed value, and keeps the identity field `name`: the reset
port equals a newly constructed port of the same name with the old
`trunk_encapsulation_mode` carried over. -/
theorem c6_amended (p : Port) :
    Port.reset p =
      { Port.new p.name with trunk_encapsulation_mode := p.trunk_encapsulation_mode } := by
  cases p
  rfl

/-- C7 counterexample: `remove_vrf` applied to the name `DEFAULT-LAN` does
remove the default VRF that construction installed, so the collection does
not always contain it. -/
theorem c7_counterexample :
    (SwitchConfiguration.init []).get_vrf "DEFAULT-LAN" = some ⟨"DEFAULT-LAN"⟩ ∧
    ((SwitchConfiguration.init []).remove_vrf "DEFAULT-LAN").get_vrf "DEFAULT-LAN" =
      none := by decide

/-- C7 amended: the VRF named `DEFAULT-LAN` is present at construction and is
preserved by every `add_vrf` and by `remove_vrf` applied to any name other
than `DEFAULT-LAN` itself (`remove_vrf "DEFAULT-LAN"` removes it — nothing
protects the default VRF). -/
theorem c7_amended :
    (∀ ports, (SwitchConfiguration.init ports).get_vrf "DEFAULT-LAN" =
      some ⟨"DEFAULT-LAN"⟩) ∧
    (∀ (c : SwitchConfiguration) (v : VRF), (c.get_vrf "DEFAULT-LAN").isSome = true →
      ((c.add_vrf v).get_vrf "DEFAULT-LAN").isSome = true) ∧
    (∀ (c : SwitchConfiguration) (n : String), n ≠ "DEFAULT-LAN" →
      (c.get_vrf "DEFAULT-LAN").isSome = true →
      ((c.remove_vrf n).get_vrf "DEFAULT-LAN").isSome = true) := by
  refine ⟨fun ports => rfl, ?_, ?_⟩
  · intro c v h
    by_cases hx : (c.get_vrf v.name).isSome = true
    · simpa [SwitchConfiguration.add_vrf, hx] using h
    · simp only [Bool.not_eq_true] at hx
      obtain ⟨x, hm, hq⟩ := py_next_isSome_iff.mp h
      simp only [SwitchConfiguration.add_vrf, hx, Bool.false_eq_true, if_false]
      exact py_next_isSome_iff.mpr ⟨x, by simp [SwitchConfiguration.get_vrf, hm], hq⟩
  · intro c n hn h
    rcases hg : c.get_vrf n with _ | v
    · simpa [SwitchConfiguration.remove_vrf, hg] using h
    · obtain ⟨x, hm, hq⟩ := py_next_isSome_iff.mp h
      have hxn : (x.name == n) = false := by
        have : x.name = "DEFAULT-LAN" := by simpa using hq
        simp [this, Ne.symm hn]
      have hg' : py_next (fun v => v.name == n) c.vrfs = some v := hg
      simp only [SwitchConfiguration.remove_vrf, SwitchConfiguration.get_vrf, hg']
      exact py_next_isSome_iff.mpr ⟨x, mem_remove_first_of_neg hm hxn, hq⟩

/-- Witness for C7 (amended): add a VRF `X`, then remove it again — the
default VRF survives both operations. -/
theorem c7_witness :
    (("X" : String) ≠ "DEFAULT-LAN") ∧
    ((((SwitchConfiguration.init []).add_vrf ⟨"X"⟩).get_vrf "DEFAULT-LAN").isSome =
      true) ∧
    (((((SwitchConfiguration.init []).add_vrf ⟨"X"⟩).remove_vrf "X").get_vrf
      "DEFAULT-LAN").isSome = true) :=
  ⟨by decide,
    c7_amended.2.1 _ _ (by decide),
    c7_amended.2.2 _ "X" (by decide) (c7_amended.2.1 _ _ (by decide))⟩

/-- C8: on a port with no VRRP group g, `ip vrrp-extended vrid g` creates the
group, appends it to the port's VRRP list and enters its sub-mode; running the
same command again changes nothing, enters the very same group, and the
port's VRRP list holds exactly one entry with group id g — the one
`get_vrrp_group g` returns before and after the second invocation. -/
theorem c8_vrid_idempotent (ports : List VlanPort) (i : Nat) (P : VlanPort)
    (g : String) (hP : ports.get? i = some P) (hg : P.get_vrrp_group g = none) :
    do_ip i ports ["vrrp-extended", "vrid", g] =
      some ⟨ports.set i { P with vrrps := P.vrrps ++ [VRRP.new g] }, [],
        some (VRRP.new g)⟩ ∧
    do_ip i (ports.set i { P with vrrps := P.vrrps ++ [VRRP.new g] })
        ["vrrp-extended", "vrid", g] =
      some ⟨ports.set i { P with vrrps := P.vrrps ++ [VRRP.new g] }, [],
        some (VRRP.new g)⟩ ∧
    ({ P with vrrps := P.vrrps ++ [VRRP.new g] } : VlanPort).get_vrrp_group g =
      some (VRRP.new g) ∧
    ({ P with vrrps := P.vrrps ++ [VRRP.new g] } : VlanPort).vrrps.filter
      (fun v => v.group_id == g) = [VRRP.new g] := by
  have hall : ∀ v ∈ P.vrrps, (v.group_id == g) = false := py_next_eq_none_iff.mp hg
  have hfound : ({ P with vrrps := P.vrrps ++ [VRRP.new g] } : VlanPort).get_vrrp_group
      g = some (VRRP.new g) := by
    simp only [VlanPort.get_vrrp_group]
    rw [py_next_append _ hall]
    simp [py_next, VRRP.new]
  have hlen : i < ports.length := get?_lt hP
  have hnew : (ports.set i { P with vrrps := P.vrrps ++ [VRRP.new g] }).get? i =
      some { P with vrrps := P.vrrps ++ [VRRP.new g] } := get?_set_self _ hlen
  refine ⟨?_, ?_, hfound, ?_⟩
  · simp only [do_ip, do_ip_vrrp, List.get?, psw_self, psw_addr_ve, psw_ag_ve,
      psw_auth_vrid, hP, hg, Bool.false_eq_true, if_false, if_true,
      List.append_nil, List.nil_append]
  · simp only [do_ip, do_ip_vrrp, List.get?, psw_self, psw_addr_ve, psw_ag_ve,
      psw_auth_vrid, hnew, hfound, Bool.false_eq_true, if_false, if_true,
      List.append_nil, List.nil_append]
  · rw [List.filter_append, filter_all_false hall]
    simp [List.filter, VRRP.new]

/-- Witness for C8: group `7` on one fresh port. -/
theorem c8_witness :
    (([vp0] : List VlanPort).get? 0 = some vp0) ∧
    (vp0.get_vrrp_group "7" = none) ∧
    (do_ip 0 [vp0] ["vrrp-extended", "vrid", "7"] =
      some ⟨[vp0].set 0 { vp0 with vrrps := vp0.vrrps ++ [VRRP.new "7"] }, [],
        some (VRRP.new "7")⟩ ∧
    do_ip 0 ([vp0].set 0 { vp0 with vrrps := vp0.vrrps ++ [VRRP.new "7"] })
        ["vrrp-extended", "vrid", "7"] =
      some ⟨[vp0].set 0 { vp0 with vrrps := vp0.vrrps ++ [VRRP.new "7"] }, [],
        some (VRRP.new "7")⟩ ∧
    ({ vp0 with vrrps := vp0.vrrps ++ [VRRP.new "7"] } : VlanPort).get_vrrp_group "7" =
      some (VRRP.new "7") ∧
    ({ vp0 with vrrps := vp0.vrrps ++ [VRRP.new "7"] } : VlanPort).vrrps.filter
      (fun v => v.group_id == "7") = [VRRP.new "7"]) :=
  ⟨by decide, by decide,
    c8_vrid_idempotent [vp0] 0 vp0 "7" (by decide) (by decide)⟩

/-- C9: `no ip vrrp-extended auth-type simple-text-auth <secret>` (exactly
four argument tokens) is accepted, behaves exactly like
`ip vrrp-extended auth-type no-auth`, and clears the port's shared VRRP
authentication string; every other form `no ip vrrp-extended auth-type ...`
(at least one token after `auth-type`, total argument count different from
four) emits the line `Incomplete command.` and leaves all state unchanged. -/
theorem c9_no_auth (ports : List VlanPort) (i : Nat) (P : VlanPort)
    (secret : String) (hP : ports.get? i = some P) :
    do_no_ip i ports ["vrrp-extended", "auth-type", "simple-text-auth", secret] =
      do_ip i ports ["vrrp-extended", "auth-type", "no-auth"] ∧
    do_no_ip i ports ["vrrp-extended", "auth-type", "simple-text-auth", secret] =
      some ⟨ports.set i { P with vrrp_common_authentication := none }, [], none⟩ ∧
    (∀ rest : List String, rest ≠ [] → rest.length ≠ 2 →
      do_no_ip i ports (["vrrp-extended", "auth-type"] ++ rest) =
        some ⟨ports, ["Incomplete command."], none⟩) := by
  have hlen4 : ((["vrrp-extended", "auth-type", "simple-text-auth", secret] :
      List String).length == 4) = true := rfl
  have part2 : do_no_ip i ports
      ["vrrp-extended", "auth-type", "simple-text-auth", secret] =
      some ⟨ports.set i { P with vrrp_common_authentication := none }, [], none⟩ := by
    simp only [do_no_ip, do_no_ip_vrrp, do_ip, do_ip_vrrp, List.get?, psw_self,
      psw_addr_ve, psw_ag_ve, psw_vrid_auth, psw_sta_noauth, hlen4, hP,
      Bool.false_eq_true, if_false, if_true, Bool.and_self, Bool.true_and,
      Bool.and_true, List.append_nil, List.nil_append]
  have part1 : do_ip i ports ["vrrp-extended", "auth-type", "no-auth"] =
      some ⟨ports.set i { P with vrrp_common_authentication := none }, [], none⟩ := by
    simp only [do_ip, do_ip_vrrp, List.get?, psw_self, psw_addr_ve, psw_ag_ve,
      psw_vrid_auth, psw_sta_noauth, hP, Bool.false_eq_true, if_false, if_true,
      List.append_nil, List.nil_append]
  refine ⟨part2.trans part1.symm, part2, ?_⟩
  intro rest h1 h2
  match rest, h1 with
  | r0 :: rtl, _ =>
    have hb : ((("vrrp-extended" :: "auth-type" :: r0 :: rtl) :
        List String).length == 4) = false := by
      simp only [List.length_cons, beq_eq_false_iff_ne]
      intro hc
      apply h2
      simp only [List.length_cons]
      omega
    simp only [List.cons_append, List.nil_append, do_no_ip, do_no_ip_vrrp,
      List.get?, psw_self, psw_addr_ve, psw_ag_ve, psw_vrid_auth, hb,
      Bool.and_false, Bool.false_eq_true, if_false, if_true, List.append_nil,
      List.nil_append]

/-- Witness for C9: the accepted four-token form on a port with a configured
secret, plus the rejected three-token form. -/
theorem c9_witness :
    (([c9_port] : List VlanPort).get? 0 = some c9_port) ∧
    (do_no_ip 0 [c9_port] ["vrrp-extended", "auth-type", "simple-text-auth", "VLAN62"] =
      do_ip 0 [c9_port] ["vrrp-extended", "auth-type", "no-auth"]) ∧
    (do_no_ip 0 [c9_port] ["vrrp-extended", "auth-type", "simple-text-auth", "VLAN62"] =
      some ⟨[c9_port].set 0 { c9_port with vrrp_common_authentication := none },
        [], none⟩) ∧
    ((["simple-text-auth"] : List String) ≠ []) ∧
    ((["simple-text-auth"] : List String).length ≠ 2) ∧
    (do_no_ip 0 [c9_port] (["vrrp-extended", "auth-type"] ++ ["simple-text-auth"]) =
      some ⟨[c9_port], ["Incomplete command."], none⟩) :=
  ⟨by decide,
    (c9_no_auth [c9_port] 0 c9_port "VLAN62" (by decide)).1,
    (c9_no_auth [c9_port] 0 c9_port "VLAN62" (by decide)).2.1,
    by decide, by decide,
    (c9_no_auth [c9_port] 0 c9_port "VLAN62" (by decide)).2.2 ["simple-text-auth"]
      (by decide) (by decide)⟩

theorem lowerChar_digit (c : Char) : isDigitChar (lowerChar c) = isDigitChar c := by
  unfold lowerChar
  split <;> rfl

theorem any_digit_map_lower (l : List Char) :
    (l.map lowerChar).any isDigitChar = l.any isDigitChar := by
  induction l with
  | nil => rfl
  | cons c cs ih => simp [lowerChar_digit, ih]

theorem split_chars_none_iff (l : List Char) :
    split_port_name_chars l = none ↔ l.any isDigitChar = false := by
  induction l with
  | nil => simp [split_port_name_chars]
  | cons c cs ih =>
    by_cases hc : isDigitChar c = true
    · simp [split_port_name_chars, hc]
    · simp only [Bool.not_eq_true] at hc
      rcases h : split_port_name_chars cs with _ | r
      · simp only [split_port_name_chars, hc, Bool.false_eq_true, if_false, h,
          List.any_cons, Bool.or_eq_false_iff]
        rw [h] at ih
        simp only [true_iff] at ih
        simp [hc, ih]
      · simp only [split_port_name_chars, hc, Bool.false_eq_true, if_false, h,
          List.any_cons, Bool.or_eq_false_iff]
        rw [h] at ih
        constructor
        · intro hfalse; cases hfalse
        · rintro ⟨-, hcs⟩
          rw [← ih] at hcs
          cases hcs

/-- C10: `get_port_by_partial_name` completes (with the found port or the
not-found sentinel) exactly when the query string contains a decimal digit;
on a digit-free query `split_port_name`'s regular-expression search finds
nothing and the operation aborts (modelled by `none`) instead of returning
the sentinel. -/
theorem c10_digit_needed (ports : List Port) (name : String) :
    get_port_by_part_name ports name = none ↔ has_digit name = false := by
  have hlist : (py_lower name).data = name.toList.map lowerChar := rfl
  rcases h : split_port_name_chars ((py_lower name).data) with _ | r
  · have hd : has_digit name = false := by
      have := (split_chars_none_iff _).mp h
      rw [hlist, any_digit_map_lower] at this
      exact this
    simp [get_port_by_part_name, split_port_name, String.toList, h, hd]
  · have hd : has_digit name = true := by
      have hno : ¬ split_port_name_chars ((py_lower name).data) = none := by
        simp [h]
      rw [split_chars_none_iff, hlist, any_digit_map_lower] at hno
      simpa [has_digit] using hno
    simp [get_port_by_part_name, split_port_name, String.toList, h, hd]

end FakeSwitches
